import Mathlib

/-!
Verification of the Weather-Dashboard feature-derivation logic
(`src/WEATHER.py`) against its natural-language specification.

The script is a linear pandas/streamlit program.  We embed its
data-preparation and aggregation steps shallowly:

* a CSV row is a `RawRow` (timestamp string plus optional numeric columns;
  a pandas `NaN` is `none`);
* `pd.to_datetime` is an external library routine, so timestamp parsing is
  a parameter `parse : String → Option DateTime` of the load step;
* a `DataFrame` is a `List` of rows; boolean-mask indexing and `df.copy()`
  produce fresh lists, and column assignment builds a new row type, which
  matches the pandas copy semantics the script relies on;
* `groupby(k)[v].agg` is: sorted distinct keys, then the aggregate over the
  rows of each key group; pandas `sum` skips missing values (empty group of
  present values sums to 0), pandas `mean` of no present values is `NaN`
  (`none` here);
* `pivot_table(index, columns, values, aggfunc=mean)` keeps the index/column
  labels that have at least one present observation (`dropna=True`) and puts
  `none` in empty cells; the subsequent label selection
  `heatmap_data[days_order]` raises a `KeyError` when a requested label is
  absent, which we model as `none` from `selectCols`.

Rationals stand in for the floating-point column values.
-/

namespace Weather

/-- A parsed timestamp, as exposed by the pandas `dt` accessor: `dt.month`,
`dt.year`, `dt.dayofweek` (Monday = 0), `dt.date`, `dt.hour`. -/
structure DateTime where
  year : Int
  month : Nat
  day : Nat
  hour : Nat
  dayOfWeek : Nat
deriving DecidableEq

/-- A calendar date (the `df['date'] = df['time'].dt.date` column). -/
structure Date where
  year : Int
  month : Nat
  day : Nat
deriving DecidableEq

/-- Chronological order on calendar dates, the order pandas uses for
`df['date'] >= start` / `df['date'] <= end`: lexicographic on
(year, month, day). -/
def Date.Le (a b : Date) : Prop :=
  a.year < b.year ∨
    (a.year = b.year ∧ (a.month < b.month ∨ (a.month = b.month ∧ a.day ≤ b.day)))

instance : DecidableRel Date.Le := fun a b => by
  unfold Date.Le; infer_instance

/-- A raw CSV row after `dropna(axis=1, how='all')`: the timestamp text plus
the numeric columns used by the dashboard.  A missing value (pandas `NaN`)
is `none`.  Column names are the source names with the unit suffixes
sanitised to legal identifiers. -/
structure RawRow where
  time : String
  temperature_2m_mean : Option ℚ
  relative_humidity_2m_mean : Option ℚ
  wind_speed_10m_mean : Option ℚ
  rain_sum_mm : Option ℚ
deriving DecidableEq

/-- `get_season` from `load_data` (src/WEATHER.py lines 26-30). -/
def get_season (month : Nat) : String :=
  if month ∈ ([12, 1, 2] : List Nat) then "Winter"
  else if month ∈ ([3, 4, 5] : List Nat) then "Spring"
  else if month ∈ ([6, 7, 8] : List Nat) then "Summer"
  else "Autumn"

/-- A loaded row: the original columns plus the derived columns attached by
`load_data` (src/WEATHER.py lines 20-31). -/
structure Row where
  time : DateTime
  temperature_2m_mean : Option ℚ
  relative_humidity_2m_mean : Option ℚ
  wind_speed_10m_mean : Option ℚ
  rain_sum_mm : Option ℚ
  month : Nat
  year : Int
  day_of_week : Nat
  date : Date
  season : String
deriving DecidableEq

/-- Attach the derived calendar columns to one row whose timestamp parsed
to `t` (src/WEATHER.py lines 20-31). -/
def deriveRow (t : DateTime) (r : RawRow) : Row :=
  { time := t
    temperature_2m_mean := r.temperature_2m_mean
    relative_humidity_2m_mean := r.relative_humidity_2m_mean
    wind_speed_10m_mean := r.wind_speed_10m_mean
    rain_sum_mm := r.rain_sum_mm
    month := t.month
    year := t.year
    day_of_week := t.dayOfWeek
    date := ⟨t.year, t.month, t.day⟩
    season := get_season t.month }

/-- `load_data` (src/WEATHER.py lines 8-33): `pd.to_datetime(df['time'])`
raises on the first unparseable timestamp, failing the whole load; on
success every row gets the derived columns.  The parser itself is the
external `pd.to_datetime`, passed in as `parse`. -/
def load_data (parse : String → Option DateTime) : List RawRow → Option (List Row)
  | [] => some []
  | r :: rs =>
    match parse r.time with
    | none => none
    | some t =>
      match load_data parse rs with
      | none => none
      | some rows => some (deriveRow t r :: rows)

/-- The date-range filter (src/WEATHER.py lines 68-71): with exactly two
bounds, boolean-mask filtering on the `date` column, inclusive at both
ends; any other number of bounds falls back to `df.copy()`, i.e. all rows. -/
def filterByRange (rows : List Row) (dateRange : List Date) : List Row :=
  match dateRange with
  | [s, e] => rows.filter (fun r => decide (Date.Le s r.date) && decide (Date.Le r.date e))
  | _ => rows

/-! ### Grouped aggregates over the filtered view -/

/-- The values of an optional column that are actually present: pandas
aggregations skip `NaN` entries. -/
def presentVals : List (Option ℚ) → List ℚ
  | [] => []
  | none :: xs => presentVals xs
  | some q :: xs => q :: presentVals xs

theorem mem_presentVals {xs : List (Option ℚ)} {q : ℚ} :
    q ∈ presentVals xs ↔ some q ∈ xs := by
  induction xs with
  | nil => simp [presentVals]
  | cons x xs ih =>
    cases x with
    | none => simp [presentVals, ih]
    | some p => simp [presentVals, ih]

/-- Pandas `Series.sum()` (default `min_count=0`): the sum of the present
values, `0` when none is present. -/
def seriesSum (xs : List (Option ℚ)) : ℚ :=
  (presentVals xs).sum

/-- Pandas `Series.mean()`: the mean of the present values, `NaN` (`none`)
when none is present. -/
def seriesMean (xs : List (Option ℚ)) : Option ℚ :=
  if presentVals xs = [] then none
  else some ((presentVals xs).sum / (presentVals xs).length)

/-- Mean of a list of plain (never-missing) values, such as the series of
monthly totals produced by a `groupby(...).sum()`. -/
def meanList (xs : List ℚ) : Option ℚ :=
  if xs = [] then none else some (xs.sum / xs.length)

/-- The distinct month numbers present in a row set, ascending: the group
keys of `df_filtered.groupby('month')` (pandas sorts group keys). -/
def monthsPresent (rows : List Row) : List Nat :=
  List.insertionSort (· ≤ ·) ((rows.map Row.month).dedup)

/-- The rows of one month group. -/
def monthRows (rows : List Row) (m : Nat) : List Row :=
  rows.filter (fun r => decide (r.month = m))

/-- Total rainfall of one month group (pandas sum, missing values skipped). -/
def totalRain (rows : List Row) (m : Nat) : ℚ :=
  seriesSum ((monthRows rows m).map Row.rain_sum_mm)

/-- `monthly_rain = df_filtered.groupby('month')['rain_sum_mm'].sum()`
(src/WEATHER.py line 149). -/
def monthly_rain (rows : List Row) : List (Nat × ℚ) :=
  (monthsPresent rows).map (fun m => (m, totalRain rows m))

/-- `monthly_rain.mean()`: the mean of the monthly totals (`NaN`, i.e.
`none`, when there is no month group at all). -/
def rainMean (rows : List Row) : Option ℚ :=
  meanList ((monthly_rain rows).map Prod.snd)

/-- `wet_months = monthly_rain[monthly_rain > monthly_rain.mean()].index`
(src/WEATHER.py line 150).  Comparison of a pandas series against `NaN` is
elementwise false, so an absent mean selects nothing. -/
def wet_months (rows : List Row) : List Nat :=
  match rainMean rows with
  | none => []
  | some μ => ((monthly_rain rows).filter (fun p => decide (μ < p.2))).map Prod.fst

/-- The `'Wet' if x in wet_months else 'Dry'` label of one month
(src/WEATHER.py line 151). -/
def monthType (rows : List Row) (m : Nat) : String :=
  if m ∈ wet_months rows then "Wet" else "Dry"

/-- `df_filtered['MonthType'] = df_filtered['month'].apply(...)`
(src/WEATHER.py line 151): labels every row of the filtered view. -/
def addMonthType (rows : List Row) : List (Row × String) :=
  rows.map (fun r => (r, monthType rows r.month))

/-- Mean of one metric over one month group: one cell of
`df_filtered.groupby('month')[selected_metric].mean()`. -/
def monthMean (rows : List Row) (metric : Row → Option ℚ) (m : Nat) : Option ℚ :=
  seriesMean ((monthRows rows m).map metric)

/-- `monthly_avg = df_filtered.groupby('month')[selected_metric].mean().reset_index()`
(src/WEATHER.py line 119). -/
def monthly_avg (rows : List Row) (metric : Row → Option ℚ) : List (Nat × Option ℚ) :=
  (monthsPresent rows).map (fun m => (m, monthMean rows metric m))

/-- `monthly_rainfall = df_filtered.groupby('month')['rain_sum_mm'].sum().reset_index()`
(src/WEATHER.py line 166): the same grouping as `monthly_rain`, recomputed
for the rainfall-trend chart. -/
def monthly_rainfall (rows : List Row) : List (Nat × ℚ) :=
  (monthsPresent rows).map (fun m => (m, totalRain rows m))

/-! ### Helper lemmas about the grouping -/

theorem mem_monthsPresent {rows : List Row} {m : Nat} :
    m ∈ monthsPresent rows ↔ ∃ r ∈ rows, r.month = m := by
  unfold monthsPresent
  rw [(List.perm_insertionSort _ _).mem_iff, List.mem_dedup, List.mem_map]

theorem nodup_monthsPresent (rows : List Row) : (monthsPresent rows).Nodup :=
  (List.perm_insertionSort _ _).symm.nodup (List.nodup_dedup _)

theorem sorted_monthsPresent (rows : List Row) :
    (monthsPresent rows).Sorted (· ≤ ·) :=
  List.sorted_insertionSort _ _

theorem mem_monthly_rain {rows : List Row} {m : Nat} {q : ℚ} :
    (m, q) ∈ monthly_rain rows ↔ m ∈ monthsPresent rows ∧ q = totalRain rows m := by
  unfold monthly_rain
  rw [List.mem_map]
  constructor
  · rintro ⟨m₀, hm₀, h⟩
    obtain ⟨h₁, h₂⟩ := Prod.mk.injEq .. ▸ h
    exact ⟨h₁ ▸ hm₀, h₂.symm.trans (by rw [h₁])⟩
  · rintro ⟨hm, rfl⟩
    exact ⟨m, hm, rfl⟩

theorem mem_wet_months {rows : List Row} {μ : ℚ} (hμ : rainMean rows = some μ)
    {m : Nat} :
    m ∈ wet_months rows ↔ m ∈ monthsPresent rows ∧ μ < totalRain rows m := by
  unfold wet_months
  rw [hμ]
  simp only [List.mem_map, List.mem_filter]
  constructor
  · rintro ⟨⟨m₀, q₀⟩, ⟨hmem, hlt⟩, rfl⟩
    obtain ⟨hm, rfl⟩ := mem_monthly_rain.mp hmem
    exact ⟨hm, of_decide_eq_true hlt⟩
  · rintro ⟨hm, hlt⟩
    exact ⟨(m, totalRain rows m), ⟨mem_monthly_rain.mpr ⟨hm, rfl⟩, decide_eq_true hlt⟩, rfl⟩

theorem sum_const_list {t : ℚ} : ∀ {xs : List ℚ}, (∀ x ∈ xs, x = t) →
    xs.sum = xs.length * t
  | [], _ => by simp
  | x :: xs, h => by
    have hx : x = t := h x (List.mem_cons_self x xs)
    have ih := sum_const_list (fun y hy => h y (List.mem_cons_of_mem x hy))
    simp [hx, ih, add_mul, add_comm]

theorem meanList_const {xs : List ℚ} {t : ℚ} (hne : xs ≠ [])
    (h : ∀ x ∈ xs, x = t) : meanList xs = some t := by
  have hlen : (xs.length : ℚ) ≠ 0 :=
    Nat.cast_ne_zero.mpr (fun h0 => hne (List.length_eq_zero.mp h0))
  unfold meanList
  rw [if_neg hne, sum_const_list h, mul_div_cancel_left₀ t hlen]

theorem monthType_eq_wet {rows : List Row} {m : Nat} :
    monthType rows m = "Wet" ↔ m ∈ wet_months rows := by
  unfold monthType
  by_cases h : m ∈ wet_months rows
  · simp [h]
  · simp [h]

theorem monthType_eq_dry {rows : List Row} {m : Nat} :
    monthType rows m = "Dry" ↔ m ∉ wet_months rows := by
  unfold monthType
  by_cases h : m ∈ wet_months rows
  · simp [h]
  · simp [h]

theorem seriesSum_all_none {xs : List (Option ℚ)} (h : ∀ x ∈ xs, x = none) :
    seriesSum xs = 0 := by
  induction xs with
  | nil => rfl
  | cons x xs ih =>
    have hx := h x (List.mem_cons_self x xs)
    subst hx
    simpa [seriesSum, presentVals] using ih (fun y hy => h y (List.mem_cons_of_mem _ hy))

theorem seriesSum_nonneg {xs : List (Option ℚ)}
    (h : ∀ q : ℚ, some q ∈ xs → 0 ≤ q) : 0 ≤ seriesSum xs := by
  unfold seriesSum
  apply List.sum_nonneg
  intro x hx
  exact h x (mem_presentVals.mp hx)

theorem totalRain_nonneg {rows : List Row}
    (h : ∀ r ∈ rows, ∀ q : ℚ, r.rain_sum_mm = some q → 0 ≤ q) (m : Nat) :
    0 ≤ totalRain rows m := by
  unfold totalRain
  apply seriesSum_nonneg
  intro q hq
  obtain ⟨r, hr, hrq⟩ := List.mem_map.mp hq
  exact h r (List.mem_of_mem_filter hr) q hrq

theorem rainMean_nonneg {rows : List Row} {μ : ℚ}
    (h : ∀ r ∈ rows, ∀ q : ℚ, r.rain_sum_mm = some q → 0 ≤ q)
    (hμ : rainMean rows = some μ) : 0 ≤ μ := by
  unfold rainMean meanList at hμ
  by_cases hne : ((monthly_rain rows).map Prod.snd) = []
  · rw [if_pos hne] at hμ; cases hμ
  · rw [if_neg hne] at hμ
    have hsum : 0 ≤ ((monthly_rain rows).map Prod.snd).sum := by
      apply List.sum_nonneg
      intro x hx
      obtain ⟨⟨m₀, q₀⟩, hmem, rfl⟩ := List.mem_map.mp hx
      obtain ⟨_, rfl⟩ := mem_monthly_rain.mp hmem
      exact totalRain_nonneg h m₀
    rw [← Option.some.inj hμ]
    exact div_nonneg hsum (Nat.cast_nonneg _)

/-! ### Concrete fixtures for the witnesses -/

/-- Two loaded rows in months 1 and 2 with rainfall totals 5 and 15. -/
def rowsWet : List Row :=
  [deriveRow ⟨2024, 1, 10, 0, 2⟩ ⟨"t1", some 20, some 50, some 10, some 5⟩,
   deriveRow ⟨2024, 2, 10, 0, 3⟩ ⟨"t2", some 21, some 55, some 11, some 15⟩]

/-- Two loaded rows: month 3 with missing rainfall, month 4 with rainfall 7. -/
def rowsMiss : List Row :=
  [deriveRow ⟨2024, 3, 5, 0, 1⟩ ⟨"t3", some 18, some 40, some 9, none⟩,
   deriveRow ⟨2024, 4, 5, 0, 4⟩ ⟨"t4", some 22, some 35, some 8, some 7⟩]

/-- Claim C1: on a non-empty filtered row set the mean of the monthly
rainfall totals exists, a present month is labelled Wet exactly when its
total strictly exceeds that mean, and when all monthly totals are equal
(including a single-month range) every month is labelled Dry. -/
theorem classifyWetDry_strict_mean (rows : List Row) :
    (rows ≠ [] → ∃ μ : ℚ, rainMean rows = some μ) ∧
    (∀ (m : Nat) (μ : ℚ), (∃ r ∈ rows, r.month = m) → rainMean rows = some μ →
      (monthType rows m = "Wet" ↔ μ < totalRain rows m)) ∧
    ((∀ m₁ ∈ monthsPresent rows, ∀ m₂ ∈ monthsPresent rows,
        totalRain rows m₁ = totalRain rows m₂) →
      ∀ m : Nat, monthType rows m = "Dry") := by
  refine ⟨?_, ?_, ?_⟩
  · intro hne
    obtain ⟨r, hr⟩ := List.exists_mem_of_ne_nil rows hne
    have hm : r.month ∈ monthsPresent rows := mem_monthsPresent.mpr ⟨r, hr, rfl⟩
    have hmem : (r.month, totalRain rows r.month) ∈ monthly_rain rows :=
      mem_monthly_rain.mpr ⟨hm, rfl⟩
    have hmr : ((monthly_rain rows).map Prod.snd) ≠ [] :=
      List.ne_nil_of_mem (List.mem_map_of_mem Prod.snd hmem)
    unfold rainMean meanList
    rw [if_neg hmr]
    exact ⟨_, rfl⟩
  · intro m μ hm hμ
    rw [monthType_eq_wet, mem_wet_months hμ]
    exact and_iff_right (mem_monthsPresent.mpr hm)
  · intro heq m
    rw [monthType_eq_dry]
    cases hrm : rainMean rows with
    | none => unfold wet_months; rw [hrm]; simp
    | some μ =>
      rw [mem_wet_months hrm]
      rintro ⟨hm, hlt⟩
      have hconst : ∀ x ∈ (monthly_rain rows).map Prod.snd, x = totalRain rows m := by
        intro x hx
        obtain ⟨⟨m₀, q₀⟩, hmem, rfl⟩ := List.mem_map.mp hx
        obtain ⟨hm₀, rfl⟩ := mem_monthly_rain.mp hmem
        exact heq m₀ hm₀ m hm
      have hne : ((monthly_rain rows).map Prod.snd) ≠ [] :=
        List.ne_nil_of_mem (List.mem_map_of_mem Prod.snd
          (mem_monthly_rain.mpr ⟨hm, rfl⟩))
      have hμt : rainMean rows = some (totalRain rows m) := by
        unfold rainMean
        exact meanList_const hne hconst
      have hμeq : μ = totalRain rows m := Option.some.inj (hrm ▸ hμt)
      exact absurd hlt (hμeq ▸ lt_irrefl μ)

/-- Witness for C1 on `rowsWet` (totals 5 and 15, mean 10): month 2 is Wet. -/
theorem classifyWetDry_strict_mean_witness :
    (∃ r ∈ rowsWet, r.month = 2) ∧ rainMean rowsWet = some 10 ∧
      monthType rowsWet 2 = "Wet" := by
  have h1 : ∃ r ∈ rowsWet, r.month = 2 := by decide
  have hmp : monthsPresent rowsWet = [1, 2] := by decide
  have ht1 : totalRain rowsWet 1 = 5 := by
    norm_num [totalRain, seriesSum, presentVals, monthRows, rowsWet, deriveRow]
  have ht2 : totalRain rowsWet 2 = 15 := by
    norm_num [totalRain, seriesSum, presentVals, monthRows, rowsWet, deriveRow]
  have h2 : rainMean rowsWet = some 10 := by
    have hsnd : (monthly_rain rowsWet).map Prod.snd = [5, 15] := by
      simp [monthly_rain, hmp, ht1, ht2]
    rw [rainMean, hsnd]
    unfold meanList
    rw [if_neg (by simp : ¬([5, 15] : List ℚ) = [])]
    norm_num
  refine ⟨h1, h2, ?_⟩
  exact ((classifyWetDry_strict_mean rowsWet).2.1 2 10 h1 h2).mpr (by norm_num [ht2])

/-- Claim C10: a month present in the filtered set all of whose rainfall
values are missing gets monthly total 0, that total participates in the
monthly-totals series (it is not excluded), and — rainfall being
non-negative — the month is classified Dry. -/
theorem missing_rain_month_zero_dry (rows : List Row) (m : Nat)
    (hm : ∃ r ∈ rows, r.month = m)
    (hmiss : ∀ r ∈ rows, r.month = m → r.rain_sum_mm = none) :
    totalRain rows m = 0 ∧ (m, 0) ∈ monthly_rain rows ∧
      ((∀ r ∈ rows, ∀ q : ℚ, r.rain_sum_mm = some q → 0 ≤ q) →
        monthType rows m = "Dry") := by
  have htot : totalRain rows m = 0 := by
    unfold totalRain
    apply seriesSum_all_none
    intro x hx
    obtain ⟨r, hr, rfl⟩ := List.mem_map.mp hx
    have hrm : r.month = m := of_decide_eq_true (List.mem_filter.mp hr).2
    exact hmiss r (List.mem_of_mem_filter hr) hrm
  refine ⟨htot, mem_monthly_rain.mpr ⟨mem_monthsPresent.mpr hm, htot.symm⟩, ?_⟩
  intro hpos
  rw [monthType_eq_dry]
  cases hrm : rainMean rows with
  | none => unfold wet_months; rw [hrm]; simp
  | some μ =>
    rw [mem_wet_months hrm]
    rintro ⟨_, hlt⟩
    rw [htot] at hlt
    exact absurd hlt (not_lt.mpr (rainMean_nonneg hpos hrm))

/-- Witness for C10 on `rowsMiss`: month 3 has only a missing rainfall value
and comes out Dry. -/
theorem missing_rain_month_zero_dry_witness :
    (∃ r ∈ rowsMiss, r.month = 3) ∧
      (∀ r ∈ rowsMiss, r.month = 3 → r.rain_sum_mm = none) ∧
      monthType rowsMiss 3 = "Dry" := by
  have h1 : ∃ r ∈ rowsMiss, r.month = 3 := by decide
  have h2 : ∀ r ∈ rowsMiss, r.month = 3 → r.rain_sum_mm = none := by decide
  have h3 : ∀ r ∈ rowsMiss, ∀ q : ℚ, r.rain_sum_mm = some q → 0 ≤ q := by
    intro r hr q hq
    fin_cases hr
    · simp [deriveRow] at hq
    · simp [deriveRow] at hq
      norm_num [← hq]
  exact ⟨h1, h2, (missing_rain_month_zero_dry rowsMiss 3 h1 h2).2.2 h3⟩

theorem map_fst_monthly_avg (rows : List Row) (metric : Row → Option ℚ) :
    (monthly_avg rows metric).map Prod.fst = monthsPresent rows := by
  simp [monthly_avg, Function.comp_def]

theorem map_fst_monthly_rainfall (rows : List Row) :
    (monthly_rainfall rows).map Prod.fst = monthsPresent rows := by
  simp [monthly_rainfall, Function.comp_def]

theorem mem_monthly_avg {rows : List Row} {metric : Row → Option ℚ} {m : Nat}
    {v : Option ℚ} :
    (m, v) ∈ monthly_avg rows metric ↔
      m ∈ monthsPresent rows ∧ v = monthMean rows metric m := by
  unfold monthly_avg
  rw [List.mem_map]
  constructor
  · rintro ⟨m₀, hm₀, h⟩
    obtain ⟨h₁, h₂⟩ := Prod.mk.injEq .. ▸ h
    exact ⟨h₁ ▸ hm₀, h₂.symm.trans (by rw [h₁])⟩
  · rintro ⟨hm, rfl⟩
    exact ⟨m, hm, rfl⟩

theorem mem_monthly_rainfall {rows : List Row} {m : Nat} {q : ℚ} :
    (m, q) ∈ monthly_rainfall rows ↔
      m ∈ monthsPresent rows ∧ q = totalRain rows m := by
  unfold monthly_rainfall
  rw [List.mem_map]
  constructor
  · rintro ⟨m₀, hm₀, h⟩
    obtain ⟨h₁, h₂⟩ := Prod.mk.injEq .. ▸ h
    exact ⟨h₁ ▸ hm₀, h₂.symm.trans (by rw [h₁])⟩
  · rintro ⟨hm, rfl⟩
    exact ⟨m, hm, rfl⟩

/-- Claim C5: `monthly_avg` and `monthly_rainfall` have exactly one entry per
distinct month present in the filtered data (carrying the mean of the metric,
resp. the rainfall sum, of that month group) and are ordered ascending by
month number. -/
theorem monthly_aggregates_ordered (rows : List Row) (metric : Row → Option ℚ) :
    ((monthly_avg rows metric).map Prod.fst).Sorted (· ≤ ·) ∧
    ((monthly_avg rows metric).map Prod.fst).Nodup ∧
    (∀ (m : Nat) (v : Option ℚ), (m, v) ∈ monthly_avg rows metric ↔
      (∃ r ∈ rows, r.month = m) ∧ v = monthMean rows metric m) ∧
    ((monthly_rainfall rows).map Prod.fst).Sorted (· ≤ ·) ∧
    ((monthly_rainfall rows).map Prod.fst).Nodup ∧
    (∀ (m : Nat) (q : ℚ), (m, q) ∈ monthly_rainfall rows ↔
      (∃ r ∈ rows, r.month = m) ∧ q = totalRain rows m) := by
  refine ⟨?_, ?_, ?_, ?_, ?_, ?_⟩
  · rw [map_fst_monthly_avg]; exact sorted_monthsPresent rows
  · rw [map_fst_monthly_avg]; exact nodup_monthsPresent rows
  · intro m v; rw [mem_monthly_avg, mem_monthsPresent]
  · rw [map_fst_monthly_rainfall]; exact sorted_monthsPresent rows
  · rw [map_fst_monthly_rainfall]; exact nodup_monthsPresent rows
  · intro m q; rw [mem_monthly_rainfall, mem_monthsPresent]

/-- Witness for C5 on `rowsWet`: month 1 appears with temperature mean 20. -/
theorem monthly_aggregates_ordered_witness :
    (1, some 20) ∈ monthly_avg rowsWet Row.temperature_2m_mean := by
  have h1 : ∃ r ∈ rowsWet, r.month = 1 := by decide
  have hfil : (monthRows rowsWet 1).map Row.temperature_2m_mean = [some 20] := by
    simp [monthRows, rowsWet, deriveRow]
  have hmean : monthMean rowsWet Row.temperature_2m_mean 1 = some 20 := by
    rw [monthMean, hfil]
    have hpv : presentVals [some 20] = [20] := rfl
    unfold seriesMean
    rw [hpv, if_neg (by simp : ¬([20] : List ℚ) = [])]
    norm_num
  exact ((monthly_aggregates_ordered rowsWet Row.temperature_2m_mean).2.2.1 1
    (some 20)).mpr ⟨h1, hmean.symm⟩

/-- Claim C3: for every month m in 1..12, `get_season m` is exactly one of
Winter, Spring, Summer, Autumn, following the fixed mapping
{12,1,2} → Winter, {3,4,5} → Spring, {6,7,8} → Summer, else → Autumn; the
four buckets partition all twelve months. -/
theorem get_season_partition :
    ∀ m ∈ List.range 13, 1 ≤ m →
      (get_season m = "Winter" ∨ get_season m = "Spring" ∨
        get_season m = "Summer" ∨ get_season m = "Autumn") ∧
      (get_season m = "Winter" ↔ m = 12 ∨ m = 1 ∨ m = 2) ∧
      (get_season m = "Spring" ↔ m = 3 ∨ m = 4 ∨ m = 5) ∧
      (get_season m = "Summer" ↔ m = 6 ∨ m = 7 ∨ m = 8) ∧
      (get_season m = "Autumn" ↔ m = 9 ∨ m = 10 ∨ m = 11) := by
  decide

/-- Witness for C3 at the concrete month 4. -/
theorem get_season_partition_witness :
    (4 ∈ List.range 13 ∧ 1 ≤ 4) ∧ get_season 4 = "Spring" :=
  ⟨⟨by decide, by decide⟩,
    (get_season_partition 4 (by decide) (by decide)).2.2.1.mpr (Or.inr (Or.inl rfl))⟩

/-- Claim C2: with exactly two bounds the filter keeps exactly the rows whose
calendar date lies in [start, end] (inclusive on both ends, never adding
rows); with any other number of bounds it returns all rows unchanged. -/
theorem filterByRange_correct :
    (∀ (rows : List Row) (s e : Date) (r : Row),
        r ∈ filterByRange rows [s, e] ↔
          r ∈ rows ∧ Date.Le s r.date ∧ Date.Le r.date e) ∧
    (∀ (rows : List Row) (s e : Date), (filterByRange rows [s, e]).Sublist rows) ∧
    (∀ (rows : List Row) (dr : List Date), dr.length ≠ 2 → filterByRange rows dr = rows) := by
  refine ⟨?_, ?_, ?_⟩
  · intro rows s e r
    simp [filterByRange, List.mem_filter, and_assoc]
  · intro rows s e
    exact List.filter_sublist rows
  · intro rows dr h
    match dr with
    | [] => rfl
    | [_] => rfl
    | [_, _] => exact absurd rfl h
    | _ :: _ :: _ :: _ => rfl

/-- Witness for C2: a one-bound range is a no-op on a concrete table. -/
theorem filterByRange_correct_witness :
    ([(⟨2024, 5, 1⟩ : Date)].length ≠ 2) ∧
      filterByRange [] [(⟨2024, 5, 1⟩ : Date)] = [] :=
  ⟨by decide, filterByRange_correct.2.2 [] [⟨2024, 5, 1⟩] (by decide)⟩

/-! ### The load step: all-or-nothing parsing and determinism -/

theorem load_data_cons_none (parse : String → Option DateTime) (r : RawRow)
    (rs : List RawRow) :
    load_data parse (r :: rs) = none ↔
      parse r.time = none ∨ load_data parse rs = none := by
  cases hp : parse r.time with
  | none => simp [load_data, hp]
  | some t =>
    cases hl : load_data parse rs with
    | none => simp [load_data, hp, hl]
    | some out => simp [load_data, hp, hl]

theorem load_data_none_iff (parse : String → Option DateTime)
    (rows : List RawRow) :
    load_data parse rows = none ↔ ∃ r ∈ rows, parse r.time = none := by
  induction rows with
  | nil => simp [load_data]
  | cons r rs ih => rw [load_data_cons_none, ih]; simp

/-- The relation between a raw row and its loaded form: the timestamp parsed
and every derived column is attached from the parse result
(src/WEATHER.py lines 13 and 20-31). -/
def derivedFrom (parse : String → Option DateTime) (raw : RawRow) (row : Row) :
    Prop :=
  ∃ t : DateTime, parse raw.time = some t ∧ row.time = t ∧
    row.temperature_2m_mean = raw.temperature_2m_mean ∧
    row.relative_humidity_2m_mean = raw.relative_humidity_2m_mean ∧
    row.wind_speed_10m_mean = raw.wind_speed_10m_mean ∧
    row.rain_sum_mm = raw.rain_sum_mm ∧
    row.month = t.month ∧ row.year = t.year ∧ row.day_of_week = t.dayOfWeek ∧
    row.date = ⟨t.year, t.month, t.day⟩ ∧ row.season = get_season t.month

theorem load_data_derives (parse : String → Option DateTime) :
    ∀ (rows : List RawRow) (out : List Row), load_data parse rows = some out →
      List.Forall₂ (derivedFrom parse) rows out := by
  intro rows
  induction rows with
  | nil =>
    intro out h
    simp only [load_data, Option.some.injEq] at h
    subst h
    exact List.Forall₂.nil
  | cons r rs ih =>
    intro out h
    cases hp : parse r.time with
    | none => rw [load_data, hp] at h; cases h
    | some t =>
      rw [load_data, hp] at h
      cases hl : load_data parse rs with
      | none => rw [hl] at h; cases h
      | some out₀ =>
        rw [hl] at h
        obtain rfl := (Option.some.injEq .. ▸ h : deriveRow t r :: out₀ = out)
        exact List.Forall₂.cons
          ⟨t, hp, rfl, rfl, rfl, rfl, rfl, rfl, rfl, rfl, rfl, rfl⟩ (ih out₀ hl)

/-- Claim C6: the load fails (as a whole, with no partial recovery) exactly
when some timestamp is unparseable; on success every row gets month, year,
day-of-week, date and season attached from its parsed timestamp. -/
theorem load_all_or_nothing (parse : String → Option DateTime)
    (rows : List RawRow) :
    (load_data parse rows = none ↔ ∃ r ∈ rows, parse r.time = none) ∧
    (∀ out : List Row, load_data parse rows = some out →
      List.Forall₂ (derivedFrom parse) rows out) :=
  ⟨load_data_none_iff parse rows, fun out h => load_data_derives parse rows out h⟩

/-- A concrete parser and input for the load witnesses. -/
def dtW : DateTime := ⟨2024, 7, 4, 0, 1⟩

def parseW : String → Option DateTime := fun _ => some dtW

def rawW : List RawRow := [⟨"2024-07-04", some 30, some 20, some 12, some 0⟩]

def outW : List Row := [deriveRow dtW ⟨"2024-07-04", some 30, some 20, some 12, some 0⟩]

/-- Witness for C6: the concrete load succeeds and derives the columns. -/
theorem load_all_or_nothing_witness :
    List.Forall₂ (derivedFrom parseW) rawW outW :=
  (load_all_or_nothing parseW rawW).2 outW rfl

/-- Claim C9: loading is deterministic — two runs on equal inputs produce
equal derived tables. -/
theorem load_data_deterministic (p₁ p₂ : String → Option DateTime)
    (rows₁ rows₂ : List RawRow) (hp : p₁ = p₂) (hr : rows₁ = rows₂) :
    load_data p₁ rows₁ = load_data p₂ rows₂ := by
  subst hp; subst hr; rfl

/-- Witness for C9 at a concrete parser and table. -/
theorem load_data_deterministic_witness :
    load_data parseW rawW = load_data parseW rawW :=
  load_data_deterministic parseW parseW rawW rawW rfl rfl

/-! ### The per-view derivations and the temperature pivots -/

/-- The fixed Monday-first day template (src/WEATHER.py line 220). -/
def days_order : List String :=
  ["Monday", "Tuesday", "Wednesday", "Thursday", "Friday", "Saturday", "Sunday"]

/-- The fixed January-first month template (src/WEATHER.py lines 242-243). -/
def months_order : List String :=
  ["January", "February", "March", "April", "May", "June",
   "July", "August", "September", "October", "November", "December"]

/-- pandas `dt.day_name()` for `dt.dayofweek = dow` (Monday = 0). -/
def dayNameOf (dow : Nat) : String := days_order.getD dow ""

/-- pandas `dt.month_name()` for month m (January = 1). -/
def monthNameOf (m : Nat) : String := months_order.getD (m - 1) ""

/-- A row of the filtered view after the per-view column assignments:
`MonthType` (line 151), `hour`, the day-name overwrite of `day_of_week` and
`month_name` (lines 203-205). -/
structure RowX where
  base : Row
  MonthType : String
  hour : Nat
  day_name : String
  month_name : String
deriving DecidableEq

/-- The whole selection-and-derivation pass of the script: filter by the
date range (lines 68-71), then attach the per-view columns to the filtered
copy (lines 151 and 203-205).  Boolean-mask indexing and `df.copy()` give a
fresh frame, so the assignments target the copy and the loaded table `df` is
returned untouched. -/
def view_pipeline (df : List Row) (dateRange : List Date) :
    List Row × List RowX :=
  let dff := filterByRange df dateRange
  (df, dff.map (fun r =>
    { base := r
      MonthType := monthType dff r.month
      hour := r.time.hour
      day_name := dayNameOf r.time.dayOfWeek
      month_name := monthNameOf r.time.month }))

/-- Claim C8: filtering and the subsequent per-view derivations never mutate
the original loaded table; the filtered view is built from (a subsequence
of) the original rows. -/
theorem view_pipeline_no_mutation (df : List Row) (dateRange : List Date) :
    (view_pipeline df dateRange).1 = df ∧
      ((view_pipeline df dateRange).2.map RowX.base).Sublist df := by
  constructor
  · rfl
  · have hmap : (view_pipeline df dateRange).2.map RowX.base =
        filterByRange df dateRange := by
      simp [view_pipeline, Function.comp_def]
    rw [hmap]
    match dateRange with
    | [_, _] => exact List.filter_sublist df
    | [] => exact List.Sublist.refl df
    | [_] => exact List.Sublist.refl df
    | _ :: _ :: _ :: _ => exact List.Sublist.refl df

/-- A pivoted frame: row labels, column labels, and the cell contents
(`none` is a missing cell). -/
structure PivotT (ι : Type) where
  index : List ι
  cols : List String
  cell : ι → String → Option ℚ

/-- The rows with a present observation of the value column: with the
default `dropna=True`, `pivot_table` keeps exactly the row/column labels
that have at least one present observation. -/
def obsRows (rows : List Row) (val : Row → Option ℚ) : List Row :=
  rows.filter (fun r => (val r).isSome)

def chLt (a b : Char) : Bool := a.toNat < b.toNat

def strLtChars : List Char → List Char → Bool
  | [], [] => false
  | [], _ :: _ => true
  | _ :: _, [] => false
  | c :: cs, d :: ds => if chLt c d then true else if chLt d c then false else strLtChars cs ds

/-- Alphabetical order on labels, as pandas sorts string group keys. -/
def strLe (a b : String) : Bool := strLtChars a.toList b.toList || a == b

def insertStr (s : String) : List String → List String
  | [] => [s]
  | t :: ts => if strLe s t then s :: t :: ts else t :: insertStr s ts

/-- Insertion sort of label lists (pandas sorts pivot labels). -/
def sortStrings : List String → List String
  | [] => []
  | s :: ss => insertStr s (sortStrings ss)

def sortNats : List Nat → List Nat := List.insertionSort (· ≤ ·)

/-- The `hour` column (line 203). -/
def hourOf (r : Row) : Nat := r.time.hour

/-- The day-name overwrite of `day_of_week` (line 204). -/
def dayNameCol (r : Row) : String := dayNameOf r.time.dayOfWeek

/-- The `month_name` column (line 205). -/
def monthNameCol (r : Row) : String := monthNameOf r.time.month

/-- `df_filtered.pivot_table(index='hour', columns='day_of_week',
values='temperature_2m_mean_°C', aggfunc='mean')` (lines 212-217). -/
def pivot_hour_day (rows : List Row) : PivotT Nat :=
  { index := sortNats (((obsRows rows Row.temperature_2m_mean).map hourOf).dedup)
    cols := sortStrings (((obsRows rows Row.temperature_2m_mean).map dayNameCol).dedup)
    cell := fun h d => seriesMean ((rows.filter
      (fun r => decide (hourOf r = h) && decide (dayNameCol r = d))).map
        Row.temperature_2m_mean) }

/-- Label selection `frame[order]` on a pivoted frame: pandas raises a
`KeyError` (modelled as `none`) when any requested label is absent. -/
def selectCols {ι : Type} (t : PivotT ι) (order : List String) :
    Option (PivotT ι) :=
  if order.all (fun c => t.cols.contains c) then
    some { index := t.index, cols := order, cell := t.cell }
  else none

/-- `heatmap_data = heatmap_data[days_order]` on the hour-by-day pivot
(lines 212-221). -/
def heatmap_hour_day (rows : List Row) : Option (PivotT Nat) :=
  selectCols (pivot_hour_day rows) days_order

/-- The day-by-month pivot (lines 234-239). -/
def pivot_day_month (rows : List Row) : PivotT String :=
  { index := sortStrings (((obsRows rows Row.temperature_2m_mean).map dayNameCol).dedup)
    cols := sortStrings (((obsRows rows Row.temperature_2m_mean).map monthNameCol).dedup)
    cell := fun d mn => seriesMean ((rows.filter
      (fun r => decide (dayNameCol r = d) && decide (monthNameCol r = mn))).map
        Row.temperature_2m_mean) }

/-- `heatmap_data = heatmap_data[months_order]` on the day-by-month pivot
(lines 234-244). -/
def heatmap_day_month (rows : List Row) : Option (PivotT String) :=
  selectCols (pivot_day_month rows) months_order

/-- Filtered rows observed only on a Monday and a Wednesday (June 2024),
both with present temperatures. -/
def rowsMW : List Row :=
  [deriveRow ⟨2024, 6, 3, 14, 0⟩ ⟨"m1", some 25, some 30, some 10, some 0⟩,
   deriveRow ⟨2024, 6, 5, 14, 2⟩ ⟨"m2", some 27, some 28, some 9, some 0⟩]

/-- Claim C4, evaluated at the failing input: with observations on Monday
and Wednesday only, the pivot has just those two day columns, and the
fixed-template selection `heatmap_data[days_order]` fails (pandas
`KeyError`) instead of presenting the unobserved days as missing. -/
theorem heatmap_missing_day_fails :
    (pivot_hour_day rowsMW).cols = ["Monday", "Wednesday"] ∧
      heatmap_hour_day rowsMW = none := by
  exact ⟨rfl, rfl⟩

/-- Claim C7, evaluated at the failing input: on an empty filtered set the
wet/dry classification, the monthly means and the monthly rainfall totals
all come back empty without failing, but both temperature pivots fail
(pandas `KeyError` when the fixed label template is selected from a pivot
with no columns). -/
theorem empty_filtered_aggregates :
    wet_months [] = [] ∧ addMonthType [] = [] ∧ monthly_rain [] = [] ∧
      monthly_rainfall [] = [] ∧
      (∀ metric : Row → Option ℚ, monthly_avg [] metric = []) ∧
      heatmap_hour_day [] = none ∧ heatmap_day_month [] = none :=
  ⟨rfl, rfl, rfl, rfl, fun _ => rfl, rfl, rfl⟩

end Weather
